import Mathlib

/-!
Shallow embedding of the educational-tool orchestration pipeline
(`backend/graph/workflow.py`, `backend/agents/validator.py`,
`backend/agents/tool_executor.py`, `backend/services/gemini_service.py`).

External effects (the LLM gateway, the tool HTTP endpoint, the database
session) are modelled by explicit oracle values passed to the functions that
consume them; everything else is translated directly from the Python source.
-/

namespace Orch

/-- Enum `ToolType` from `models/schemas.py`. -/
inductive ToolType where
  | noteMaker
  | flashcardGenerator
  | conceptExplainer
deriving DecidableEq, Repr

/-- String value of the `ToolType` enum member, as in Python `tool_type.value`. -/
def ToolType.value : ToolType → String
  | .noteMaker => "note_maker"
  | .flashcardGenerator => "flashcard_generator"
  | .conceptExplainer => "concept_explainer"

/-- Lowercasing `s.lower()`, written over the character list so that it
reduces inside the kernel. -/
def pyLower (s : String) : String := String.mk (s.data.map Char.toLower)

/-- Whitespace test used by `pyStrip`. -/
def isStripChar (c : Char) : Bool := c == ' ' || c == '\t' || c == '\n' || c == '\r'

/-- Whitespace trimming `s.strip()`, written over the character list so that
it reduces inside the kernel. -/
def pyStrip (s : String) : String :=
  String.mk (((s.data.dropWhile isStripChar).reverse.dropWhile isStripChar).reverse)

/-- Prefix test on character lists. -/
def isPrefixList : List Char → List Char → Bool
  | [], _ => true
  | _ :: _, [] => false
  | a :: as, b :: bs => a == b && isPrefixList as bs

/-- Substring occurrence on character lists. -/
def containsList (pat : List Char) : List Char → Bool
  | [] => pat.isEmpty
  | c :: rest => isPrefixList pat (c :: rest) || containsList pat rest

/-- Substring test modelling Python `pat in s`. -/
def strContains (s pat : String) : Bool := containsList pat.data s.data

/-- Dynamically-typed Python/JSON value, as stored in the extracted-parameter
dict.  Floats are modelled by rationals (no float arithmetic occurs in the
modelled code paths). -/
inductive PyValue where
  | vStr (s : String)
  | vInt (n : Int)
  | vBool (b : Bool)
  | vFloat (q : Rat)
  | vNone
deriving DecidableEq, Repr

/-- Python truthiness of a value (`bool(v)`). -/
def PyValue.truthy : PyValue → Bool
  | .vStr s => !s.isEmpty
  | .vInt n => n != 0
  | .vBool b => b
  | .vFloat q => q != 0
  | .vNone => false

/-- Python `isinstance(v, int)`: true for ints and bools (bool is a subclass
of int in Python). -/
def PyValue.isInstInt : PyValue → Bool
  | .vInt _ => true
  | .vBool _ => true
  | _ => false

/-- Integer value of a Python int-like value (bools count as 0 / 1). -/
def PyValue.intVal : PyValue → Int
  | .vInt n => n
  | .vBool b => if b then 1 else 0
  | _ => 0

/-- Python `str(v)` for the values we model. -/
def PyValue.pyStr : PyValue → String
  | .vStr s => s
  | .vInt n => toString n
  | .vBool b => if b then "True" else "False"
  | .vFloat q => toString q
  | .vNone => "None"

/-- A Python dict of extracted parameters, modelled as an association list
keyed by field name (first binding wins, as a dict has unique keys). -/
abbrev Params := List (String × PyValue)

/-- Dict lookup `params.get(key)` returning `none` for an absent key. -/
def getParam (params : Params) (key : String) : Option PyValue :=
  match params.find? (fun kv => kv.1 = key) with
  | some kv => some kv.2
  | none => none

/-- Dict update `params[key] = v` (replaces the binding if present). -/
def setParam (params : Params) (key : String) (v : PyValue) : Params :=
  match params with
  | [] => [(key, v)]
  | kv :: rest =>
      if kv.1 = key then (key, v) :: rest else kv :: setParam rest key v

/-- Truthiness of `params.get(field)`: an absent key gives Python `None`,
which is falsy. -/
def paramTruthy (params : Params) (key : String) : Bool :=
  match getParam params key with
  | some v => v.truthy
  | none => false

/-- Message in the conversation history (`ChatMessage` in `models/schemas.py`;
the role enum is carried as its string value). -/
structure ChatMessage where
  role : String
  content : String
deriving DecidableEq, Repr

/-- Student profile (`UserInfo` in `models/schemas.py`). -/
structure UserInfo where
  user_id : String
  name : String
  grade_level : String
  learning_style_summary : String
  emotional_state_summary : String
  mastery_level_summary : String
  teaching_style : String := "direct"
deriving DecidableEq, Repr

/-- Extraction result (`ExtractedParameters` in `models/schemas.py`).
`confidence` is a rational in place of the Python float. -/
structure ExtractedParameters where
  tool_type : ToolType
  parameters : Params
  confidence : Rat
  missing_required : List String
  inferred_params : List (String × String)
deriving DecidableEq, Repr

/-- Typed input for the Note Maker tool (`NoteMakerInput`). -/
structure NoteMakerInput where
  user_info : UserInfo
  chat_history : List ChatMessage
  topic : String
  subject : String
  note_taking_style : String
  include_examples : Bool
  include_analogies : Bool
deriving DecidableEq, Repr

/-- Typed input for the Flashcard Generator tool (`FlashcardGeneratorInput`). -/
structure FlashcardGeneratorInput where
  user_info : UserInfo
  topic : String
  count : Int
  difficulty : String
  include_examples : Bool
  subject : String
deriving DecidableEq, Repr

/-- Typed input for the Concept Explainer tool (`ConceptExplainerInput`). -/
structure ConceptExplainerInput where
  user_info : UserInfo
  chat_history : List ChatMessage
  concept_to_explain : String
  current_topic : String
  desired_depth : String
deriving DecidableEq, Repr

/-- The validated tool input carried in the state (`tool_input`); one of the
three per-tool typed inputs. -/
inductive ToolInput where
  | noteMaker (i : NoteMakerInput)
  | flashcard (i : FlashcardGeneratorInput)
  | conceptExplainer (i : ConceptExplainerInput)
deriving DecidableEq, Repr

/-- Pydantic coercion for a `str` field: only actual strings are accepted
(lax mode does not coerce numbers to strings). -/
def pydStr : PyValue → Option String
  | .vStr s => some s
  | _ => none

/-- Pydantic lax coercion for a `bool` field. -/
def pydBool : PyValue → Option Bool
  | .vBool b => some b
  | .vInt 0 => some false
  | .vInt 1 => some true
  | .vStr s =>
      if ["true", "yes", "on", "y", "t", "1"].contains (pyLower s) then some true
      else if ["false", "no", "off", "n", "f", "0"].contains (pyLower s) then some false
      else none
  | .vFloat q => if q == 0 then some false else if q == 1 then some true else none
  | _ => none

/-- Allowed values of the `note_taking_style` literal field. -/
def noteStyles : List String := ["outline", "bullet_points", "narrative", "structured"]

/-- Allowed values of the `difficulty` literal field. -/
def difficulties : List String := ["easy", "medium", "hard"]

/-- Allowed values of the `desired_depth` literal field. -/
def depths : List String := ["basic", "intermediate", "advanced", "comprehensive"]

/-- Required fields of the Note Maker schema, in the order the validator
checks them. -/
def requiredNoteMaker : List String := ["topic", "subject", "note_taking_style"]

/-- Required fields of the Flashcard Generator schema, in the order the
validator checks them. -/
def requiredFlashcard : List String := ["topic", "count", "difficulty", "subject"]

/-- Required fields of the Concept Explainer schema, in the order the
validator checks them. -/
def requiredConceptExplainer : List String :=
  ["concept_to_explain", "current_topic", "desired_depth"]

/-- List comprehension `[f for f in required if not params.get(f)]` used by
each `_validate_*` function in `agents/validator.py`. -/
def missingOf (required : List String) (params : Params) : List String :=
  required.filter (fun f => !paramTruthy params f)

/-- Pydantic construction of `NoteMakerInput` from the raw parameter dict;
`none` models a raised `ValidationError`. -/
def buildNoteMakerInput (params : Params) (u : UserInfo)
    (history : List ChatMessage) : Option NoteMakerInput :=
  match pydStr ((getParam params "topic").getD .vNone),
        pydStr ((getParam params "subject").getD .vNone),
        pydStr ((getParam params "note_taking_style").getD .vNone),
        pydBool ((getParam params "include_examples").getD (.vBool true)),
        pydBool ((getParam params "include_analogies").getD (.vBool false)) with
  | some topic, some subject, some style, some ex, some an =>
      if noteStyles.contains style then
        some { user_info := u, chat_history := history, topic := topic,
               subject := subject, note_taking_style := style,
               include_examples := ex, include_analogies := an }
      else none
  | _, _, _, _, _ => none

/-- Pydantic construction of `FlashcardGeneratorInput`; the count has already
been range-checked by the caller, but the schema bound is re-checked here as
in the `ge`/`le` field constraints. -/
def buildFlashcardInput (params : Params) (u : UserInfo)
    (count : Int) : Option FlashcardGeneratorInput :=
  match pydStr ((getParam params "topic").getD .vNone),
        pydStr ((getParam params "difficulty").getD .vNone),
        pydStr ((getParam params "subject").getD .vNone),
        pydBool ((getParam params "include_examples").getD (.vBool true)) with
  | some topic, some difficulty, some subject, some ex =>
      if difficulties.contains difficulty && 1 ≤ count && count ≤ 20 then
        some { user_info := u, topic := topic, count := count,
               difficulty := difficulty, include_examples := ex,
               subject := subject }
      else none
  | _, _, _, _ => none

/-- Pydantic construction of `ConceptExplainerInput`. -/
def buildConceptExplainerInput (params : Params) (u : UserInfo)
    (history : List ChatMessage) : Option ConceptExplainerInput :=
  match pydStr ((getParam params "concept_to_explain").getD .vNone),
        pydStr ((getParam params "current_topic").getD .vNone),
        pydStr ((getParam params "desired_depth").getD .vNone) with
  | some concept, some topic, some depth =>
      if depths.contains depth then
        some { user_info := u, chat_history := history,
               concept_to_explain := concept, current_topic := topic,
               desired_depth := depth }
      else none
  | _, _, _ => none

/-- `_validate_note_maker` in `agents/validator.py`: returns
`(is_valid, tool_input, missing_params)`. -/
def validate_note_maker (params : Params) (u : UserInfo)
    (history : List ChatMessage) : Bool × Option ToolInput × List String :=
  let missing := missingOf requiredNoteMaker params
  if missing ≠ [] then (false, none, missing)
  else
    match buildNoteMakerInput params u history with
    | some i => (true, some (.noteMaker i), [])
    | none => (false, none, ["validation_failed"])

/-- `_validate_flashcard` in `agents/validator.py`: checks the missing list
first, then the count range, then builds the Pydantic input. -/
def validate_flashcard (params : Params) (u : UserInfo) :
    Bool × Option ToolInput × List String :=
  let missing := missingOf requiredFlashcard params
  if missing ≠ [] then (false, none, missing)
  else
    let count := (getParam params "count").getD .vNone
    if !(count.isInstInt && 1 ≤ count.intVal && count.intVal ≤ 20) then
      (false, none, ["count"])
    else
      match buildFlashcardInput params u count.intVal with
      | some i => (true, some (.flashcard i), [])
      | none => (false, none, ["validation_failed"])

/-- `_validate_concept_explainer` in `agents/validator.py`. -/
def validate_concept_explainer (params : Params) (u : UserInfo)
    (history : List ChatMessage) : Bool × Option ToolInput × List String :=
  let missing := missingOf requiredConceptExplainer params
  if missing ≠ [] then (false, none, missing)
  else
    match buildConceptExplainerInput params u history with
    | some i => (true, some (.conceptExplainer i), [])
    | none => (false, none, ["validation_failed"])

/-- `validate_parameters` in `agents/validator.py`: dispatches on the tool
type.  The Lean embedding is total, so the defensive outer `except` branch
(returning `["validation_error"]`) is unreachable and not modelled. -/
def validate_parameters (tool_type : ToolType) (params : Params)
    (u : UserInfo) (history : List ChatMessage) :
    Bool × Option ToolInput × List String :=
  match tool_type with
  | .noteMaker => validate_note_maker params u history
  | .flashcardGenerator => validate_flashcard params u
  | .conceptExplainer => validate_concept_explainer params u history

/-!
Gateway service (`services/gemini_service.py`).  Each method issues one LLM
call; the call outcome is an oracle argument: `some reply` is the reply text,
`none` is a raised gateway exception.
-/

/-- Reply-to-enum mapping `tool_mapping` inside `classify_intent`. -/
def toolMapping (name : String) : Option ToolType :=
  if name = "note_maker" then some .noteMaker
  else if name = "flashcard_generator" then some .flashcardGenerator
  else if name = "concept_explainer" then some .conceptExplainer
  else none

/-- Keyword fallback inside `classify_intent`, applied when the reply maps to
no tool: keyword matching on the lowercased raw message. -/
def keywordFallback (message : String) : ToolType :=
  let m := pyLower message
  if ["note", "summary", "study guide"].any (fun w => strContains m w) then
    .noteMaker
  else if ["flashcard", "question", "quiz", "practice"].any
      (fun w => strContains m w) then
    .flashcardGenerator
  else
    .conceptExplainer

/-- `GeminiService.classify_intent`: parses the gateway reply into a tool id,
falls back to keyword matching on an unrecognized reply, and returns the
default `CONCEPT_EXPLAINER` when the gateway call raises.  The history and
profile arguments only feed the prompt text, which the oracle reply already
accounts for, so they are not parameters of the embedding. -/
def classify_intent (gatewayReply : Option String) (message : String) :
    ToolType :=
  match gatewayReply with
  | none => .conceptExplainer
  | some reply =>
      match toolMapping (pyLower (pyStrip reply)) with
      | some t => t
      | none => keywordFallback message

/-- Parsed JSON object returned by an extraction gateway call: the data
fields plus the three metadata keys (`inferred`, `missing`, `confidence`). -/
structure ParsedExtraction where
  fields : Params
  inferred : List String
  missing : List String
  confidence : Option Rat
deriving DecidableEq, Repr

/-- Metadata keys removed from the result dict when building the clean
parameter dict (`clean_params` in each `_extract_*` method). -/
def metadataKeys : List String := ["inferred", "missing", "confidence"]

/-- Dict comprehension building `clean_params`. -/
def clean_params (fields : Params) : Params :=
  fields.filter (fun kv => !metadataKeys.contains kv.1)

/-- Dict comprehension building `inferred_params`:
each name in `result.get("inferred", [])` maps to `str(result.get(name, "N/A"))`. -/
def inferredParamsOf (fields : Params) (inferred : List String) :
    List (String × String) :=
  inferred.map (fun p => (p, ((getParam fields p).getD (.vStr "N/A")).pyStr))

/-- Count repair inside `_extract_flashcard_params`: if
`result.get("count", 5)` is not an int in `[1, 20]`, set `result["count"] = 5`. -/
def fixCount (fields : Params) : Params :=
  let count := (getParam fields "count").getD (.vInt 5)
  if !count.isInstInt || count.intVal < 1 || count.intVal > 20 then
    setParam fields "count" (.vInt 5)
  else fields

/-- Fallback bundle returned by the `except` branch of
`_extract_note_maker_params`. -/
def fallbackNoteMakerBundle : ExtractedParameters :=
  { tool_type := .noteMaker,
    parameters := [("topic", .vStr "general study topic"),
                   ("subject", .vStr "General"),
                   ("note_taking_style", .vStr "bullet_points"),
                   ("include_examples", .vBool true),
                   ("include_analogies", .vBool false)],
    confidence := mkRat 3 10,
    missing_required := ["topic", "subject"],
    inferred_params := [] }

/-- Fallback bundle returned by the `except` branch of
`_extract_flashcard_params`. -/
def fallbackFlashcardBundle : ExtractedParameters :=
  { tool_type := .flashcardGenerator,
    parameters := [("topic", .vStr "general topic"),
                   ("count", .vInt 5),
                   ("difficulty", .vStr "medium"),
                   ("subject", .vStr "General"),
                   ("include_examples", .vBool true)],
    confidence := mkRat 3 10,
    missing_required := ["topic", "subject"],
    inferred_params := [] }

/-- Fallback bundle returned by the `except` branch of
`_extract_concept_explainer_params`. -/
def fallbackConceptExplainerBundle : ExtractedParameters :=
  { tool_type := .conceptExplainer,
    parameters := [("concept_to_explain", .vStr "general concept"),
                   ("current_topic", .vStr "General"),
                   ("desired_depth", .vStr "intermediate")],
    confidence := mkRat 3 10,
    missing_required := ["concept_to_explain", "current_topic"],
    inferred_params := [] }

/-- Shared success branch of the three `_extract_*` methods: defaults the
confidence to 0.8, builds the inferred map and the clean parameter dict, and
constructs `ExtractedParameters`.  A confidence outside the Pydantic bound
`[0, 1]` makes the construction raise, landing in the same `except` branch as
a gateway failure, so the caller substitutes the fallback bundle. -/
def bundleOfParsed (tool : ToolType) (r : ParsedExtraction) :
    Option ExtractedParameters :=
  let conf := r.confidence.getD (mkRat 8 10)
  if conf < 0 ∨ conf > 1 then none
  else some { tool_type := tool,
              parameters := clean_params r.fields,
              confidence := conf,
              missing_required := r.missing,
              inferred_params := inferredParamsOf r.fields r.inferred }

/-- `_extract_note_maker_params`: gateway failure, malformed JSON, or an
out-of-range confidence all land in the `except` branch. -/
def extract_note_maker_params (outcome : Option ParsedExtraction) :
    ExtractedParameters :=
  match outcome with
  | none => fallbackNoteMakerBundle
  | some r => (bundleOfParsed .noteMaker r).getD fallbackNoteMakerBundle

/-- `_extract_flashcard_params`: like the note-maker variant, with the count
repaired before the bundle is built. -/
def extract_flashcard_params (outcome : Option ParsedExtraction) :
    ExtractedParameters :=
  match outcome with
  | none => fallbackFlashcardBundle
  | some r =>
      let r := { r with fields := fixCount r.fields }
      (bundleOfParsed .flashcardGenerator r).getD fallbackFlashcardBundle

/-- `_extract_concept_explainer_params`. -/
def extract_concept_explainer_params (outcome : Option ParsedExtraction) :
    ExtractedParameters :=
  match outcome with
  | none => fallbackConceptExplainerBundle
  | some r => (bundleOfParsed .conceptExplainer r).getD fallbackConceptExplainerBundle

/-- `GeminiService.extract_parameters`: dispatches on the tool type.
`outcome = none` models a gateway failure or a malformed (unparseable)
reply — both raise inside the tool-specific method and are caught there. -/
def extract_parameters (tool_type : ToolType)
    (outcome : Option ParsedExtraction) : ExtractedParameters :=
  match tool_type with
  | .noteMaker => extract_note_maker_params outcome
  | .flashcardGenerator => extract_flashcard_params outcome
  | .conceptExplainer => extract_concept_explainer_params outcome

/-- `GeminiService.generate_clarification_question`: returns the trimmed LLM
reply on success; on a gateway failure falls back to a static choice driven
by membership tests on the missing list.  The result `none` models the
`IndexError` raised by `missing_params[0]` when the list is empty and neither
static key is present; that exception propagates to the caller. -/
def generate_clarification_question (gatewayReply : Option String)
    (missing_params : List String) : Option String :=
  match gatewayReply with
  | some reply => some (pyStrip reply)
  | none =>
      if missing_params.contains "topic" then
        some "What topic would you like to learn about?"
      else if missing_params.contains "concept_to_explain" then
        some "Which concept would you like me to explain?"
      else
        match missing_params with
        | p :: _ => some ("Could you provide more details about " ++ p ++ "?")
        | [] => none

/-!
Tool executor (`agents/tool_executor.py`).
-/

/-- Open-ended JSON payload returned by a tool endpoint. -/
abbrev ToolData := List (String × PyValue)

/-- Outcome of the HTTP POST to the tool endpoint, as an oracle value. -/
inductive ToolCallOutcome where
  | ok (data : ToolData) (latency : Nat)
  | badStatus (code : Nat) (latency : Nat)
  | timeout
  | transportError (msg : String)
deriving DecidableEq, Repr

/-- `ToolResponse` from `models/schemas.py`. -/
structure ToolResponse where
  tool_type : ToolType
  success : Bool
  data : Option ToolData := none
  error : Option String := none
  execution_time_ms : Option Nat := none
deriving DecidableEq, Repr

/-- `execute_tool` in `agents/tool_executor.py`: every one of the three tools
has an endpoint; a 200 status carries the payload, a non-200 status, a
timeout and a transport error each become a typed failed response. -/
def execute_tool (tool_type : ToolType) (outcome : ToolCallOutcome) :
    ToolResponse :=
  match outcome with
  | .ok data latency =>
      { tool_type := tool_type, success := true, data := some data,
        execution_time_ms := some latency }
  | .badStatus code latency =>
      { tool_type := tool_type, success := false,
        error := some ("Tool API error: " ++ toString code),
        execution_time_ms := some latency }
  | .timeout =>
      { tool_type := tool_type, success := false,
        error := some "Tool execution timeout" }
  | .transportError msg =>
      { tool_type := tool_type, success := false, error := some msg }

/-!
Workflow state and nodes (`graph/workflow.py`).  The state dict threaded
through LangGraph is modelled as an explicit record; the optional database
session becomes a `PersistMode` argument, and the database writes of each
node are returned as an event list alongside the state (the code never reads
a write result back into the state — write failures are only logged).
-/

/-- State dict threaded through the workflow (initialized by `orchestrate`;
matches `OrchestratorState` in `models/schemas.py`). -/
structure ConvState where
  user_message : String
  user_info : UserInfo
  chat_history : List ChatMessage
  conversation_id : String
  intent : Option ToolType := none
  extracted_params : Option ExtractedParameters := none
  validation_passed : Bool := false
  tool_input : Option ToolInput := none
  tool_response : Option ToolResponse := none
  final_message : Option String := none
  needs_clarification : Bool := false
  clarification_question : Option String := none
  processing_steps : List String := []
  errors : List String := []
deriving DecidableEq, Repr

/-- Initial state built at the start of `orchestrate` (and by
`create_initial_state` in `graph/utils/state_manager.py`). -/
def create_initial_state (message : String) (u : UserInfo)
    (history : List ChatMessage) (conversation_id : String) : ConvState :=
  { user_message := message, user_info := u, chat_history := history,
    conversation_id := conversation_id }

/-- Mode of the optional persistence handle: absent session, working
session, or a session whose every write raises. -/
inductive PersistMode where
  | disabled
  | working
  | failing
deriving DecidableEq, Repr

/-- Audit event produced by a database write attempt from a node. -/
inductive PersistEvent where
  | savedUserMessage
  | failedUserMessage
  | savedExtraction
  | failedExtraction
  | savedClarification
  | failedClarification
  | savedToolExecution
  | failedToolExecution
deriving DecidableEq, Repr

/-- Outcome of one guarded write block (`if state.get("db_session"): try ...
except db_error: log`): nothing without a session, a success event or a
logged-and-swallowed failure event otherwise. -/
def persistAttempt (mode : PersistMode) (okEv failEv : PersistEvent) :
    List PersistEvent :=
  match mode with
  | .disabled => []
  | .working => [okEv]
  | .failing => [failEv]

/-- State change of `intent_classification_node`: classifies the message and
records the intent and a processing step.  The `except` branch of the node is
unreachable because `classify_intent` catches its own gateway failure. -/
def intentClassificationNodeState (gatewayReply : Option String)
    (s : ConvState) : ConvState :=
  let t := classify_intent gatewayReply s.user_message
  { s with intent := some t,
           processing_steps :=
             s.processing_steps ++ ["Intent classified as: " ++ t.value] }

/-- Database writes of `intent_classification_node`: the user message is
saved after classification resolves. -/
def intentClassificationNodeEvents (mode : PersistMode) : List PersistEvent :=
  persistAttempt mode .savedUserMessage .failedUserMessage

/-- Outcome of the extraction stage as seen by
`parameter_extraction_node`: the gateway call failed inside the service
(caught there), an exception escaped `extract_parameters` itself (caught by
the node), or the gateway returned a parsed JSON object. -/
inductive ExtractOutcome where
  | gatewayFail
  | nodeRaise (msg : String)
  | parsed (r : ParsedExtraction)
deriving DecidableEq, Repr

/-- State change of `parameter_extraction_node`: stores the bundle returned
by the service, or — when an exception escapes the service — appends an error
and stores the empty bundle with confidence 0.0 and missing list `["all"]`. -/
def parameterExtractionNodeState (outcome : ExtractOutcome) (s : ConvState) :
    ConvState :=
  let tool := s.intent.getD .conceptExplainer
  match outcome with
  | .nodeRaise msg =>
      { s with errors := s.errors ++ ["Parameter extraction error: " ++ msg],
               extracted_params := some
                 { tool_type := tool, parameters := [], confidence := 0,
                   missing_required := ["all"], inferred_params := [] } }
  | .gatewayFail =>
      let extracted := extract_parameters tool none
      { s with extracted_params := some extracted,
               processing_steps := s.processing_steps ++
                 ["Extracted parameters with " ++ toString extracted.confidence
                   ++ " confidence"] }
  | .parsed r =>
      let extracted := extract_parameters tool (some r)
      { s with extracted_params := some extracted,
               processing_steps := s.processing_steps ++
                 ["Extracted parameters with " ++ toString extracted.confidence
                   ++ " confidence"] }

/-- Database writes of `parameter_extraction_node`: the extraction record is
saved whenever the service returned a bundle (also for the gateway-failure
fallback bundle), not when an exception escaped the service. -/
def parameterExtractionNodeEvents (outcome : ExtractOutcome)
    (mode : PersistMode) : List PersistEvent :=
  match outcome with
  | .nodeRaise _ => []
  | _ => persistAttempt mode .savedExtraction .failedExtraction

/-- State change of `validation_node`: validates the stored bundle, records
`validation_passed` and `tool_input`, and on failure overwrites the bundle
missing list with the computed one.  A state without a bundle models the
`except` branch (attribute access on `None` raises): it forces
`validation_passed = False` and leaves `tool_input` untouched. -/
def validationNodeState (s : ConvState) : ConvState :=
  match s.extracted_params with
  | none =>
      { s with validation_passed := false,
               errors := s.errors ++ ["Validation error: missing bundle"] }
  | some ep =>
      let r := validate_parameters ep.tool_type ep.parameters s.user_info
        s.chat_history
      if r.1 then
        { s with validation_passed := true, tool_input := r.2.1,
                 processing_steps := s.processing_steps ++ ["Validation passed"] }
      else
        { s with validation_passed := false, tool_input := r.2.1,
                 processing_steps := s.processing_steps ++
                   ["Validation failed: missing " ++ String.intercalate ", " r.2.2],
                 extracted_params := some { ep with missing_required := r.2.2 } }

/-- State change of `clarification_node`: asks the service for a question and
mirrors it into the final message; when the service raises (empty missing
list without a static key, or no bundle at all), the `except` branch sets the
fixed question without flagging `needs_clarification`. -/
def clarificationNodeState (gatewayReply : Option String) (s : ConvState) :
    ConvState :=
  match s.extracted_params with
  | none =>
      { s with clarification_question := some "Could you provide more details?",
               final_message := some "Could you provide more details?" }
  | some ep =>
      match generate_clarification_question gatewayReply ep.missing_required with
      | some q =>
          { s with needs_clarification := true,
                   clarification_question := some q,
                   final_message := some q,
                   processing_steps := s.processing_steps ++
                     ["Generated clarification question"] }
      | none =>
          { s with clarification_question := some "Could you provide more details?",
                   final_message := some "Could you provide more details?" }

/-- Database writes of `clarification_node`: the assistant question and the
two turn-count increments happen only when the service returned a question. -/
def clarificationNodeEvents (gatewayReply : Option String) (mode : PersistMode)
    (s : ConvState) : List PersistEvent :=
  match s.extracted_params with
  | none => []
  | some ep =>
      match generate_clarification_question gatewayReply ep.missing_required with
      | some _ => persistAttempt mode .savedClarification .failedClarification
      | none => []

/-- State change of `tool_execution_node`: calls the tool, stores the
response, and derives the final message and error log from the success flag.
`execute_tool` is total, so the except branch of the node (synthesizing a
failed response) is unreachable. -/
def toolExecutionNodeState (outcome : ToolCallOutcome) (s : ConvState) :
    ConvState :=
  let tool := s.intent.getD .conceptExplainer
  let tr := execute_tool tool outcome
  let s1 := { s with tool_response := some tr,
                     processing_steps := s.processing_steps ++
                       ["Tool executed: " ++ toString tr.success] }
  if tr.success then
    { s1 with final_message := some "Tool executed successfully. Here are your results:" }
  else
    { s1 with final_message := some ("Tool execution failed: " ++ tr.error.getD "None"),
              errors := s1.errors ++
                ["Tool execution failed: " ++ tr.error.getD "None"] }

/-- Database writes of `tool_execution_node`: the execution record, the
assistant message and the turn-count increments are attempted on every path
through the node. -/
def toolExecutionNodeEvents (mode : PersistMode) : List PersistEvent :=
  persistAttempt mode .savedToolExecution .failedToolExecution

/-!
Graph wiring (`create_orchestrator_graph` and `should_clarify`).
-/

/-- Routing function `should_clarify`: `"execute"` when validation passed,
`"clarify"` otherwise. -/
def should_clarify (s : ConvState) : String :=
  if s.validation_passed then "execute" else "clarify"

/-- Nodes of the LangGraph state graph. -/
inductive GraphNode where
  | classifyIntent
  | extractParameters
  | validate
  | clarify
  | executeTool
deriving DecidableEq, Repr

/-- Edge relation declared by `create_orchestrator_graph`: a linear chain
into `validate`, a conditional edge out of `validate` keyed by
`should_clarify` on the post-node state, and `END` after both terminals. -/
def graphSuccessor (n : GraphNode) (s : ConvState) : Option GraphNode :=
  match n with
  | .classifyIntent => some .extractParameters
  | .extractParameters => some .validate
  | .validate =>
      if should_clarify s = "execute" then some .executeTool else some .clarify
  | .executeTool => none
  | .clarify => none

/-- External-call outcomes for one run, one oracle field per outbound call. -/
structure Oracle where
  classifyReply : Option String
  extractOutcome : ExtractOutcome
  clarifyReply : Option String
  toolOutcome : ToolCallOutcome
  graphFault : Option String := none
deriving DecidableEq, Repr

/-- State transformer of a single graph node. -/
def applyNode (o : Oracle) (n : GraphNode) (s : ConvState) : ConvState :=
  match n with
  | .classifyIntent => intentClassificationNodeState o.classifyReply s
  | .extractParameters => parameterExtractionNodeState o.extractOutcome s
  | .validate => validationNodeState s
  | .clarify => clarificationNodeState o.clarifyReply s
  | .executeTool => toolExecutionNodeState o.toolOutcome s

/-- Runs the graph from a node by iterating `applyNode` and `graphSuccessor`,
returning the final state and the list of visited nodes.  The fuel bound only
serves termination; five steps cover every path of this acyclic graph. -/
def runNodes (o : Oracle) : Nat → GraphNode → ConvState → ConvState × List GraphNode
  | 0, _, s => (s, [])
  | fuel + 1, n, s =>
      let s1 := applyNode o n s
      match graphSuccessor n s1 with
      | none => (s1, [n])
      | some n2 =>
          let r := runNodes o fuel n2 s1
          (r.1, n :: r.2)

/-- Final state of `app.ainvoke(initial_state)`: the compiled graph run from
the entry point `classify_intent`. -/
def runGraphState (o : Oracle) (s : ConvState) : ConvState :=
  (runNodes o 5 .classifyIntent s).1

/-- Trace of nodes visited by one graph run. -/
def runGraphTrace (o : Oracle) (s : ConvState) : List GraphNode :=
  (runNodes o 5 .classifyIntent s).2

/-- Generic apology installed by the outer `except` branch of `orchestrate`. -/
def genericApology : String :=
  "An error occurred during processing. Please try again."

/-- `orchestrate` in `graph/workflow.py`: builds the initial state, runs the
graph, and converts any fault escaping the graph (`graphFault`) into a state
with that error logged and the generic apology as the final message. -/
def orchestrate (message : String) (u : UserInfo) (history : List ChatMessage)
    (conversation_id : String) (o : Oracle) : ConvState :=
  let s0 := create_initial_state message u history conversation_id
  match o.graphFault with
  | some e => { s0 with errors := [e], final_message := some genericApology }
  | none => runGraphState o s0

/-- Database events of one run: the per-node event lists in execution order
(no write is attempted when the run faults before the graph completes). -/
def orchestrateEvents (message : String) (u : UserInfo)
    (history : List ChatMessage) (conversation_id : String)
    (mode : PersistMode) (o : Oracle) : List PersistEvent :=
  match o.graphFault with
  | some _ => []
  | none =>
      let s0 := create_initial_state message u history conversation_id
      let s1 := intentClassificationNodeState o.classifyReply s0
      let s2 := parameterExtractionNodeState o.extractOutcome s1
      let s3 := validationNodeState s2
      intentClassificationNodeEvents mode ++
        parameterExtractionNodeEvents o.extractOutcome mode ++
        (if should_clarify s3 = "execute" then toolExecutionNodeEvents mode
         else clarificationNodeEvents o.clarifyReply mode s3)

/-- Full observable outcome of a run: the returned state plus the database
audit events, the latter depending on the persistence mode. -/
def orchestrateFull (message : String) (u : UserInfo)
    (history : List ChatMessage) (conversation_id : String)
    (mode : PersistMode) (o : Oracle) : ConvState × List PersistEvent :=
  (orchestrate message u history conversation_id o,
   orchestrateEvents message u history conversation_id mode o)

/-- State reached after the validation stage of a run (the state on which the
conditional edge out of `validate` is evaluated). -/
def stateAfterValidation (o : Oracle) (message : String) (u : UserInfo)
    (history : List ChatMessage) (conversation_id : String) : ConvState :=
  validationNodeState
    (parameterExtractionNodeState o.extractOutcome
      (intentClassificationNodeState o.classifyReply
        (create_initial_state message u history conversation_id)))

/-- Whether the state carries a tool response whose success flag is set. -/
def successToolResponse (s : ConvState) : Bool :=
  match s.tool_response with
  | some tr => tr.success
  | none => false

/-- Field names of the flashcard schema that are missing or violate their
per-field constraint (count range, difficulty enum), in schema order.  This
follows the wording of the spec (the minimal ordered list of all missing or
constraint-violating required field names), to be compared with the list the
validator actually computes. -/
def flashcardSpecViolations (params : Params) : List String :=
  requiredFlashcard.filter (fun f =>
    !paramTruthy params f ||
    (f == "count" &&
      !(let c := (getParam params "count").getD .vNone
        c.isInstInt && 1 ≤ c.intVal && c.intVal ≤ 20)) ||
    (f == "difficulty" &&
      !(match getParam params "difficulty" with
        | some (.vStr s) => difficulties.contains s
        | _ => false)))

/-!
Concrete sample inputs used by witnesses and counterexamples.
-/

/-- Sample learner profile. -/
def wUser : UserInfo :=
  { user_id := "u1", name := "Alice", grade_level := "8",
    learning_style_summary := "visual", emotional_state_summary := "focused",
    mastery_level_summary := "7" }

/-- A fully valid flashcard parameter dict. -/
def goodFlashcardParams : Params :=
  [("topic", .vStr "photosynthesis"), ("count", .vInt 8),
   ("difficulty", .vStr "easy"), ("subject", .vStr "biology")]

/-- A parsed extraction reply carrying the valid flashcard fields. -/
def goodParsed : ParsedExtraction :=
  { fields := goodFlashcardParams, inferred := [], missing := [],
    confidence := some (mkRat 9 10) }

/-- Oracle for a run that classifies to the flashcard tool, extracts valid
parameters, and then times out at the tool endpoint. -/
def wToolFailOracle : Oracle :=
  { classifyReply := some "flashcard_generator",
    extractOutcome := .parsed goodParsed,
    clarifyReply := some "How many cards?",
    toolOutcome := .timeout }

/-- Oracle for a run whose graph invocation raises. -/
def wFaultOracle : Oracle :=
  { classifyReply := some "flashcard_generator",
    extractOutcome := .parsed goodParsed,
    clarifyReply := some "How many cards?",
    toolOutcome := .timeout,
    graphFault := some "boom" }

/-- Flashcard parameter dict with `count = 21` and `topic` absent. -/
def c6Params : Params :=
  [("count", .vInt 21), ("difficulty", .vStr "easy"), ("subject", .vStr "Math")]

/-- State sitting at the validation node with the `c6Params` bundle stored. -/
def c6State : ConvState :=
  { create_initial_state "quiz me" wUser [] "conv6" with
    intent := some .flashcardGenerator,
    extracted_params := some
      { tool_type := .flashcardGenerator, parameters := c6Params,
        confidence := mkRat 9 10, missing_required := [], inferred_params := [] } }

/-!
Helper lemmas shared by the claim theorems.
-/

/-- The success flag returned by each validator coincides with the presence
of the typed tool input it returns. -/
lemma validate_parameters_passed_eq_isSome (t : ToolType) (params : Params)
    (u : UserInfo) (history : List ChatMessage) :
    (validate_parameters t params u history).1 =
      (validate_parameters t params u history).2.1.isSome := by
  cases t <;>
    simp only [validate_parameters, validate_note_maker, validate_flashcard,
      validate_concept_explainer] <;>
    repeat' first
      | rfl
      | split

/-- The classification node does not touch the response, clarification, or
tool-input fields. -/
lemma intentNode_preserves (r : Option String) (s : ConvState) :
    (intentClassificationNodeState r s).tool_response = s.tool_response
    ∧ (intentClassificationNodeState r s).clarification_question
        = s.clarification_question
    ∧ (intentClassificationNodeState r s).tool_input = s.tool_input
    ∧ (intentClassificationNodeState r s).extracted_params = s.extracted_params := by
  simp [intentClassificationNodeState]

/-- The extraction node always stores a bundle and does not touch the
response, clarification, or tool-input fields. -/
lemma extractNode_preserves (o : ExtractOutcome) (s : ConvState) :
    (parameterExtractionNodeState o s).tool_response = s.tool_response
    ∧ (parameterExtractionNodeState o s).clarification_question
        = s.clarification_question
    ∧ (parameterExtractionNodeState o s).tool_input = s.tool_input
    ∧ (parameterExtractionNodeState o s).extracted_params.isSome := by
  cases o <;> simp [parameterExtractionNodeState]

/-- The validation node does not touch the response or clarification
fields. -/
lemma validationNode_preserves (s : ConvState) :
    (validationNodeState s).tool_response = s.tool_response
    ∧ (validationNodeState s).clarification_question = s.clarification_question := by
  unfold validationNodeState
  split
  · exact ⟨rfl, rfl⟩
  · dsimp only
    split <;> exact ⟨rfl, rfl⟩

/-- One graph run is the three-stage chain followed by the branch selected by
`should_clarify` on the post-validation state. -/
lemma runGraphState_eq (o : Oracle) (s : ConvState) :
    runGraphState o s =
      (if (validationNodeState (parameterExtractionNodeState o.extractOutcome
            (intentClassificationNodeState o.classifyReply s))).validation_passed
       then toolExecutionNodeState o.toolOutcome
              (validationNodeState (parameterExtractionNodeState o.extractOutcome
                (intentClassificationNodeState o.classifyReply s)))
       else clarificationNodeState o.clarifyReply
              (validationNodeState (parameterExtractionNodeState o.extractOutcome
                (intentClassificationNodeState o.classifyReply s)))) := by
  unfold runGraphState
  simp only [runNodes, applyNode, graphSuccessor, should_clarify]
  by_cases h : (validationNodeState (parameterExtractionNodeState o.extractOutcome
      (intentClassificationNodeState o.classifyReply s))).validation_passed <;>
    simp [h]

/-- The visited-node trace of one graph run, by branch. -/
lemma runGraphTrace_eq (o : Oracle) (s : ConvState) :
    runGraphTrace o s =
      (if (validationNodeState (parameterExtractionNodeState o.extractOutcome
            (intentClassificationNodeState o.classifyReply s))).validation_passed
       then [GraphNode.classifyIntent, GraphNode.extractParameters,
             GraphNode.validate, GraphNode.executeTool]
       else [GraphNode.classifyIntent, GraphNode.extractParameters,
             GraphNode.validate, GraphNode.clarify]) := by
  unfold runGraphTrace
  simp only [runNodes, applyNode, graphSuccessor, should_clarify]
  by_cases h : (validationNodeState (parameterExtractionNodeState o.extractOutcome
      (intentClassificationNodeState o.classifyReply s))).validation_passed <;>
    simp [h]

/-- The tool-execution node always stores a response and leaves the
clarification question unchanged. -/
lemma toolNode_sets_response (oc : ToolCallOutcome) (s : ConvState) :
    (toolExecutionNodeState oc s).tool_response.isSome = true
    ∧ (toolExecutionNodeState oc s).clarification_question
        = s.clarification_question := by
  unfold toolExecutionNodeState
  dsimp only
  split <;> simp

/-- The clarification node always stores a question (also on its exception
path) and leaves the tool response unchanged. -/
lemma clarifyNode_sets_question (r : Option String) (s : ConvState) :
    (clarificationNodeState r s).clarification_question.isSome = true
    ∧ (clarificationNodeState r s).tool_response = s.tool_response := by
  unfold clarificationNodeState
  split
  · simp
  · split <;> simp

/-- Response and clarification fields are still unset when the conditional
edge out of `validate` is evaluated. -/
lemma preBranch_fields (o : Oracle) (s : ConvState)
    (hr : s.tool_response = none) (hq : s.clarification_question = none) :
    (validationNodeState (parameterExtractionNodeState o.extractOutcome
        (intentClassificationNodeState o.classifyReply s))).tool_response = none
    ∧ (validationNodeState (parameterExtractionNodeState o.extractOutcome
        (intentClassificationNodeState o.classifyReply s))).clarification_question
        = none := by
  obtain ⟨a1, b1, -, -⟩ := intentNode_preserves o.classifyReply s
  obtain ⟨a2, b2, -, -⟩ := extractNode_preserves o.extractOutcome
    (intentClassificationNodeState o.classifyReply s)
  obtain ⟨a3, b3⟩ := validationNode_preserves
    (parameterExtractionNodeState o.extractOutcome
      (intentClassificationNodeState o.classifyReply s))
  exact ⟨by rw [a3, a2, a1, hr], by rw [b3, b2, b1, hq]⟩

/-- Validation leaves `validation_passed` equal to the presence of the typed
tool input whenever the input slot was empty beforehand. -/
lemma validationNode_passed_eq_isSome (s : ConvState)
    (h : s.tool_input = none) :
    (validationNodeState s).validation_passed
      = (validationNodeState s).tool_input.isSome := by
  unfold validationNodeState
  split
  · simp [h]
  · dsimp only
    split
    · rename_i ep heq hr
      rw [← validate_parameters_passed_eq_isSome]
      exact hr.symm
    · rename_i ep heq hr
      rw [← validate_parameters_passed_eq_isSome]
      simpa using hr

/-!
Claim theorems.
-/

/-- C1: `orchestrate` is a total function (it returns a state for every
input by construction), and whenever a fault escapes the stage sequence the
returned state has a non-empty error log and the generic apology as its
final message. -/
theorem C1_orchestrate_fault_boundary (message : String) (u : UserInfo)
    (history : List ChatMessage) (cid : String) (o : Oracle) (e : String)
    (hf : o.graphFault = some e) :
    (orchestrate message u history cid o).errors ≠ []
    ∧ (orchestrate message u history cid o).final_message = some genericApology := by
  simp [orchestrate, hf]

/-- Witness for C1 at a concrete faulting run. -/
theorem C1_orchestrate_fault_boundary_witness :
    (orchestrate "make flashcards" wUser [] "conv1" wFaultOracle).errors ≠ []
    ∧ (orchestrate "make flashcards" wUser [] "conv1" wFaultOracle).final_message
        = some genericApology :=
  C1_orchestrate_fault_boundary "make flashcards" wUser [] "conv1" wFaultOracle
    "boom" rfl

/-- C4: the only conditional edge out of `validate` goes to `execute_tool`
exactly when `validation_passed` holds and to `clarify` otherwise, and every
run visits each stage at most once. -/
theorem C4_validate_branch_and_single_visit (o : Oracle) (message : String)
    (u : UserInfo) (history : List ChatMessage) (cid : String) :
    (∀ s : ConvState,
        graphSuccessor .validate s
          = some (if s.validation_passed then .executeTool else .clarify))
    ∧ (runGraphTrace o (create_initial_state message u history cid)).Nodup := by
  constructor
  · intro s
    by_cases h : s.validation_passed <;>
      simp [graphSuccessor, should_clarify, h]
  · rw [runGraphTrace_eq]
    split <;> decide

/-- C8: on a classification gateway failure, `classify_intent` resolves to
the configured default tool `concept_explainer`, independent of the message
and therefore identical across repeated calls. -/
theorem C8_classify_default_on_gateway_failure (message : String) :
    classify_intent none message = ToolType.conceptExplainer := rfl

/-- C10: after the validation stage of any run, `validation_passed` holds
exactly when `tool_input` is non-null, so the execute branch always receives
a typed input. -/
theorem C10_validation_passed_iff_tool_input (o : Oracle) (message : String)
    (u : UserInfo) (history : List ChatMessage) (cid : String) :
    (stateAfterValidation o message u history cid).validation_passed
      = (stateAfterValidation o message u history cid).tool_input.isSome := by
  unfold stateAfterValidation
  apply validationNode_passed_eq_isSome
  obtain ⟨-, -, a1, -⟩ := intentNode_preserves o.classifyReply
    (create_initial_state message u history cid)
  obtain ⟨-, -, a2, -⟩ := extractNode_preserves o.extractOutcome
    (intentClassificationNodeState o.classifyReply
      (create_initial_state message u history cid))
  rw [a2, a1]
  rfl

/-- C2 (counterexample): in a completed run whose validated tool call times
out, the tool response is present but unsuccessful and no clarification
question exists, so neither side of the claimed exactly-one disjunction
holds. -/
theorem C2_counterexample_tool_failure :
    ¬ ((successToolResponse
          (orchestrate "make flashcards" wUser [] "conv1" wToolFailOracle) = true
        ∧ (orchestrate "make flashcards" wUser [] "conv1" wToolFailOracle).clarification_question.isSome
            = false)
      ∨ (successToolResponse
          (orchestrate "make flashcards" wUser [] "conv1" wToolFailOracle) = false
        ∧ (orchestrate "make flashcards" wUser [] "conv1" wToolFailOracle).clarification_question.isSome
            = true)) := by
  decide

/-- C2 (amended): for every completed (non-faulting) run, exactly one of
{tool response present, clarification question present} holds; the success
flag of the present tool response may be false. -/
theorem C2_amended_exactly_one (message : String) (u : UserInfo)
    (history : List ChatMessage) (cid : String) (o : Oracle)
    (hf : o.graphFault = none) :
    ((orchestrate message u history cid o).tool_response.isSome = true
       ∧ (orchestrate message u history cid o).clarification_question = none)
    ∨ ((orchestrate message u history cid o).tool_response = none
       ∧ (orchestrate message u history cid o).clarification_question.isSome = true) := by
  have horch : orchestrate message u history cid o
      = runGraphState o (create_initial_state message u history cid) := by
    simp [orchestrate, hf]
  rw [horch, runGraphState_eq]
  obtain ⟨hr3, hq3⟩ := preBranch_fields o
    (create_initial_state message u history cid) rfl rfl
  split
  · left
    obtain ⟨t1, t2⟩ := toolNode_sets_response o.toolOutcome
      (validationNodeState (parameterExtractionNodeState o.extractOutcome
        (intentClassificationNodeState o.classifyReply
          (create_initial_state message u history cid))))
    exact ⟨t1, by rw [t2, hq3]⟩
  · right
    obtain ⟨c1, c2⟩ := clarifyNode_sets_question o.clarifyReply
      (validationNodeState (parameterExtractionNodeState o.extractOutcome
        (intentClassificationNodeState o.classifyReply
          (create_initial_state message u history cid))))
    exact ⟨by rw [c2, hr3], c1⟩

/-- Witness for the amended C2 at a concrete completed run. -/
theorem C2_amended_exactly_one_witness :
    ((orchestrate "make flashcards" wUser [] "conv1" wToolFailOracle).tool_response.isSome = true
       ∧ (orchestrate "make flashcards" wUser [] "conv1" wToolFailOracle).clarification_question = none)
    ∨ ((orchestrate "make flashcards" wUser [] "conv1" wToolFailOracle).tool_response = none
       ∧ (orchestrate "make flashcards" wUser [] "conv1" wToolFailOracle).clarification_question.isSome = true) :=
  C2_amended_exactly_one "make flashcards" wUser [] "conv1" wToolFailOracle rfl

/-- State after the classification node of a run heading to the flashcard
tool, used by the C3 counterexample. -/
def c3State : ConvState :=
  intentClassificationNodeState (some "flashcard_generator")
    (create_initial_state "make flashcards" wUser [] "conv3")

/-- C3 (counterexample): when the extraction gateway call fails for the
flashcard tool, the bundle that reaches validation is the service fallback
with confidence 0.3 — not 0.0 — and its missing list omits the required
fields `count` and `difficulty`. -/
theorem C3_counterexample_service_fallback :
    (parameterExtractionNodeState .gatewayFail c3State).extracted_params
        = some fallbackFlashcardBundle
    ∧ ¬ fallbackFlashcardBundle.confidence = 0
    ∧ "count" ∈ requiredFlashcard
    ∧ "count" ∉ fallbackFlashcardBundle.missing_required := by
  decide

/-- C3 (amended): a gateway failure caught inside the extraction service
yields the fixed fallback bundle with confidence 0.3 and the fixed partial
missing list `["topic", "subject"]`; only an exception escaping the service
is replaced at the node by a confidence-0.0 bundle whose missing list is the
sentinel `["all"]`, not the per-tool required list. -/
theorem C3_amended_extraction_fallbacks (s : ConvState) (msg : String)
    (h : s.intent = some .flashcardGenerator) :
    (parameterExtractionNodeState .gatewayFail s).extracted_params
        = some fallbackFlashcardBundle
    ∧ fallbackFlashcardBundle.confidence = 3/10
    ∧ fallbackFlashcardBundle.missing_required = ["topic", "subject"]
    ∧ (parameterExtractionNodeState (.nodeRaise msg) s).extracted_params
        = some { tool_type := .flashcardGenerator, parameters := [],
                 confidence := 0, missing_required := ["all"],
                 inferred_params := [] } := by
  refine ⟨?_, ?_, rfl, ?_⟩
  · simp [parameterExtractionNodeState, h, extract_parameters,
      extract_flashcard_params]
  · norm_num [fallbackFlashcardBundle, mkRat, Rat.normalize]
  · simp [parameterExtractionNodeState, h, extract_parameters,
      extract_flashcard_params]

/-- Witness for the amended C3 at a concrete run state. -/
theorem C3_amended_extraction_fallbacks_witness :
    (parameterExtractionNodeState .gatewayFail c3State).extracted_params
        = some fallbackFlashcardBundle
    ∧ fallbackFlashcardBundle.confidence = 3/10
    ∧ fallbackFlashcardBundle.missing_required = ["topic", "subject"]
    ∧ (parameterExtractionNodeState (.nodeRaise "socket closed") c3State).extracted_params
        = some { tool_type := .flashcardGenerator, parameters := [],
                 confidence := 0, missing_required := ["all"],
                 inferred_params := [] } :=
  C3_amended_extraction_fallbacks c3State "socket closed" (by decide)

/-- C5 (counterexample): a flashcard bundle with `count = 21` whose other
required fields are absent fails validation, but the resulting list does not
contain `count` — the validator returns the falsy-field list before reaching
the count constraint. -/
theorem C5_counterexample_missing_topic :
    getParam [("count", PyValue.vInt 21)] "count" = some (PyValue.vInt 21)
    ∧ (validate_flashcard [("count", PyValue.vInt 21)] wUser).1 = false
    ∧ "count" ∉ (validate_flashcard [("count", PyValue.vInt 21)] wUser).2.2 := by
  decide

/-- C5 (amended): provided the other required flashcard fields are present
and non-empty, a bundle whose `count` is 21, 0, or not an int fails
validation with `count` in the returned list. -/
theorem C5_amended_count_flagged (params : Params) (u : UserInfo) (v : PyValue)
    (hv : getParam params "count" = some v)
    (hbad : v = .vInt 21 ∨ v = .vInt 0 ∨ v.isInstInt = false)
    (ht : paramTruthy params "topic" = true)
    (hd : paramTruthy params "difficulty" = true)
    (hs : paramTruthy params "subject" = true) :
    (validate_flashcard params u).1 = false
    ∧ "count" ∈ (validate_flashcard params u).2.2 := by
  have hcount : paramTruthy params "count" = v.truthy := by
    simp [paramTruthy, hv]
  unfold validate_flashcard
  by_cases htr : v.truthy
  · have hmof : missingOf requiredFlashcard params = [] := by
      simp [missingOf, requiredFlashcard, List.filter, ht, hd, hs, hcount, htr]
    rcases hbad with h21 | h0 | hni
    · subst h21
      simp [hmof, hv, PyValue.isInstInt, PyValue.intVal]
    · subst h0
      simp [PyValue.truthy] at htr
    · simp [hmof, hv, hni]
  · have hmof : missingOf requiredFlashcard params = ["count"] := by
      simp [missingOf, requiredFlashcard, List.filter, ht, hd, hs, hcount, htr]
    simp [hmof]

/-- Witness for the amended C5: count 21 with all other fields valid. -/
theorem C5_amended_count_flagged_witness :
    (validate_flashcard (setParam goodFlashcardParams "count" (.vInt 21)) wUser).1 = false
    ∧ "count" ∈ (validate_flashcard (setParam goodFlashcardParams "count" (.vInt 21)) wUser).2.2 :=
  C5_amended_count_flagged (setParam goodFlashcardParams "count" (.vInt 21))
    wUser (.vInt 21) (by decide) (Or.inl rfl) (by decide) (by decide) (by decide)

/-- C6 (counterexample): for a flashcard bundle with `topic` absent and
`count = 21`, the schema lists both `topic` and `count` as missing or
violating, but the validation stage overwrites the bundle missing list with
`["topic"]` only — the count violation is omitted. -/
theorem C6_counterexample_violation_omitted :
    (validationNodeState c6State).validation_passed = false
    ∧ (validationNodeState c6State).extracted_params.map
        ExtractedParameters.missing_required = some ["topic"]
    ∧ flashcardSpecViolations c6Params = ["topic", "count"]
    ∧ "count" ∉ (validationNodeState c6State).extracted_params.elim []
        ExtractedParameters.missing_required := by
  decide

/-- C6 (amended): when the failing flashcard bundle has at least one absent
or empty required field, the validation stage computes exactly the ordered
list of those fields (constraint violations on the present fields are not
added), sets `validation_passed` to false, and overwrites the bundle missing
list with that list. -/
theorem C6_amended_overwrite_with_falsy_fields (s : ConvState)
    (ep : ExtractedParameters)
    (hep : s.extracted_params = some ep)
    (htool : ep.tool_type = .flashcardGenerator)
    (hmiss : missingOf requiredFlashcard ep.parameters ≠ []) :
    (validationNodeState s).validation_passed = false
    ∧ (validationNodeState s).extracted_params.map
        ExtractedParameters.missing_required
        = some (missingOf requiredFlashcard ep.parameters) := by
  have hvp : validate_parameters ep.tool_type ep.parameters s.user_info
      s.chat_history = (false, none, missingOf requiredFlashcard ep.parameters) := by
    rw [htool]
    unfold validate_parameters validate_flashcard
    simp [hmiss]
  simp [validationNodeState, hep, hvp]

/-- Witness for the amended C6 at the concrete bundle with an absent topic. -/
theorem C6_amended_overwrite_with_falsy_fields_witness :
    (validationNodeState c6State).validation_passed = false
    ∧ (validationNodeState c6State).extracted_params.map
        ExtractedParameters.missing_required
        = some (missingOf requiredFlashcard c6Params) :=
  C6_amended_overwrite_with_falsy_fields c6State
    { tool_type := .flashcardGenerator, parameters := c6Params,
      confidence := mkRat 9 10, missing_required := [], inferred_params := [] }
    rfl rfl (by decide)

/-- C7: a run whose every persistence write fails returns the same final
message, tool response and validation flag as the identical run with
persistence disabled, even though the failing run does attempt writes and
the disabled run attempts none. -/
theorem C7_persistence_noninterference (message : String) (u : UserInfo)
    (history : List ChatMessage) (cid : String) (o : Oracle)
    (hf : o.graphFault = none) :
    ((orchestrateFull message u history cid .failing o).1.final_message
        = (orchestrateFull message u history cid .disabled o).1.final_message
     ∧ (orchestrateFull message u history cid .failing o).1.tool_response
        = (orchestrateFull message u history cid .disabled o).1.tool_response
     ∧ (orchestrateFull message u history cid .failing o).1.validation_passed
        = (orchestrateFull message u history cid .disabled o).1.validation_passed)
    ∧ (orchestrateFull message u history cid .failing o).2 ≠ []
    ∧ (orchestrateFull message u history cid .disabled o).2 = [] := by
  refine ⟨⟨rfl, rfl, rfl⟩, ?_, ?_⟩
  · simp [orchestrateFull, orchestrateEvents, hf,
      intentClassificationNodeEvents, persistAttempt]
  · simp only [orchestrateFull, orchestrateEvents, hf]
    cases o.extractOutcome <;>
      simp only [intentClassificationNodeEvents, parameterExtractionNodeEvents,
        toolExecutionNodeEvents, clarificationNodeEvents, persistAttempt,
        List.nil_append] <;>
      repeat' first
        | rfl
        | split

/-- Witness for C7 at a concrete completed run. -/
theorem C7_persistence_noninterference_witness :
    ((orchestrateFull "make flashcards" wUser [] "conv1" .failing wToolFailOracle).1.final_message
        = (orchestrateFull "make flashcards" wUser [] "conv1" .disabled wToolFailOracle).1.final_message
     ∧ (orchestrateFull "make flashcards" wUser [] "conv1" .failing wToolFailOracle).1.tool_response
        = (orchestrateFull "make flashcards" wUser [] "conv1" .disabled wToolFailOracle).1.tool_response
     ∧ (orchestrateFull "make flashcards" wUser [] "conv1" .failing wToolFailOracle).1.validation_passed
        = (orchestrateFull "make flashcards" wUser [] "conv1" .disabled wToolFailOracle).1.validation_passed)
    ∧ (orchestrateFull "make flashcards" wUser [] "conv1" .failing wToolFailOracle).2 ≠ []
    ∧ (orchestrateFull "make flashcards" wUser [] "conv1" .disabled wToolFailOracle).2 = [] :=
  C7_persistence_noninterference "make flashcards" wUser [] "conv1"
    wToolFailOracle rfl

/-- C9 (counterexample): two missing lists sharing the first field `count`
produce different fallback questions, so the fallback cannot be a lookup
keyed by the first missing field name — `topic` is picked up anywhere in the
list. -/
theorem C9_counterexample_not_first_keyed :
    (["count", "topic"] : List String).head? = (["count"] : List String).head?
    ∧ generate_clarification_question none ["count", "topic"]
        ≠ generate_clarification_question none ["count"] := by
  decide

/-- C9 (amended): on a clarification gateway failure with a non-empty
missing list, the fallback question is the topic question when `topic`
occurs anywhere in the list, else the concept question when
`concept_to_explain` occurs anywhere, else a generic question naming the
first missing field. -/
theorem C9_amended_membership_fallback (missing : List String) (p : String)
    (rest : List String) (hm : missing = p :: rest) :
    generate_clarification_question none missing =
      some (if missing.contains "topic"
            then "What topic would you like to learn about?"
            else if missing.contains "concept_to_explain"
            then "Which concept would you like me to explain?"
            else "Could you provide more details about " ++ p ++ "?") := by
  subst hm
  unfold generate_clarification_question
  rw [apply_ite some, apply_ite some]

/-- Witness for the amended C9 at a concrete missing list. -/
theorem C9_amended_membership_fallback_witness :
    generate_clarification_question none ["count", "topic"] =
      some (if (["count", "topic"] : List String).contains "topic"
            then "What topic would you like to learn about?"
            else if (["count", "topic"] : List String).contains "concept_to_explain"
            then "Which concept would you like me to explain?"
            else "Could you provide more details about " ++ "count" ++ "?") :=
  C9_amended_membership_fallback ["count", "topic"] "count" ["topic"] rfl

end Orch
